import Mathlib

/-!
Shallow embedding of the off-screen frame bridge in
src/browser/src/main.rs: the windowless render handler
(MyRenderHandler with its view_size and buffer cells, its on_paint and
get_view_rect callbacks and the no-op auxiliary callbacks), the popup
blocker (on_before_popup), the startup sequence (initialize_cef,
create_browser, initialize_browser_in_context, try_main, main) and the
Quit action handler.  Mutex-protected cells become plain fields of a
state record; each callback becomes a function from the pre-state (plus
its arguments) to the post-state.
-/

namespace Browser

/-- Two's-complement semantics of a Rust cast from usize to i32
(the casts at src/browser/src/main.rs lines 458-462). -/
def i32ofUsize (n : Nat) : Int :=
  if n % 2 ^ 32 < 2 ^ 31 then ((n % 2 ^ 32 : Nat) : Int)
  else ((n % 2 ^ 32 : Nat) : Int) - 2 ^ 32

/-- cef_ui Size as used by the handler: two i32 fields. -/
structure Size where
  width : Int
  height : Int
deriving DecidableEq

/-- cef_ui Rect: four i32 fields. -/
structure Rect where
  x : Int
  y : Int
  width : Int
  height : Int
deriving DecidableEq

/-- cef PaintElementType: the normal view or the popup overlay. -/
inductive PaintElementType where
  | view
  | popup
deriving DecidableEq

/-- State of MyRenderHandler (src/browser/src/main.rs lines 386-389):
view_size is Arc<Mutex<Size>>, buffer is Arc<Mutex<Vec<u8>>>; the Mutex
cells become plain fields, the byte vector a list of bytes. -/
structure MyRenderHandler where
  view_size : Size
  buffer : List Nat
deriving DecidableEq

/-- MyRenderHandler::new (lines 392-400): size 1024 x 768, empty buffer. -/
def MyRenderHandler.new : MyRenderHandler :=
  ⟨⟨1024, 768⟩, []⟩

/-- get_view_rect (lines 404-412): reads view_size and returns
the rect at origin with that size.  It only reads the state. -/
def MyRenderHandler.get_view_rect (s : MyRenderHandler) : Rect :=
  ⟨0, 0, s.view_size.width, s.view_size.height⟩

/-- on_paint (lines 432-464): after two println!s it clears the stored
buffer and extends it from the incoming slice (net effect: the stored
bytes become exactly the incoming bytes), then overwrites view_size with
(width as i32, height as i32) when either component differs.  There is
no check of buffer.len() against width*height*4. -/
def MyRenderHandler.on_paint (s : MyRenderHandler) (element_type : PaintElementType)
    (dirty_rects : List Rect) (buffer : List Nat) (width height : Nat) :
    MyRenderHandler :=
  ⟨if s.view_size.width ≠ i32ofUsize width ∨ s.view_size.height ≠ i32ofUsize height then
      ⟨i32ofUsize width, i32ofUsize height⟩
    else s.view_size,
   buffer⟩

/-- The UI-side snapshot of the handler state: the stored bytes with the
stored dimensions, exactly the contents a reader of the two Mutex cells
observes. -/
def MyRenderHandler.snapshot (s : MyRenderHandler) : List Nat × Int × Int :=
  (s.buffer, s.view_size.width, s.view_size.height)

/-- The observe_window_bounds closure (lines 661-664): it prints the new
bounds and touches no other state; in particular it never writes
view_size, so on the handler state it is the identity. -/
def observe_window_bounds (s : MyRenderHandler) (bounds : Int × Int) :
    MyRenderHandler :=
  s

/-- on_popup_show (lines 474-476): empty body. -/
def MyRenderHandler.on_popup_show (s : MyRenderHandler) (visible : Bool) :
    MyRenderHandler :=
  s

/-- on_popup_size (lines 478-480): empty body. -/
def MyRenderHandler.on_popup_size (s : MyRenderHandler) (rect : Rect) :
    MyRenderHandler :=
  s

/-- on_accelerated_paint (lines 482-490): empty body (the shared GPU
handle argument is irrelevant and abstracted away). -/
def MyRenderHandler.on_accelerated_paint (s : MyRenderHandler)
    (element_type : PaintElementType) (dirty_rects : List Rect) :
    MyRenderHandler :=
  s

/-- on_touch_handle_state_changed (lines 503-505): empty body; the
TouchHandleState payload is never inspected, so it stays abstract. -/
def MyRenderHandler.on_touch_handle_state_changed {α : Type} (s : MyRenderHandler)
    (touch_state : α) : MyRenderHandler :=
  s

/-- start_dragging (lines 507-515): returns false and changes nothing;
DragData and DragOperations are never inspected, so they stay abstract. -/
def MyRenderHandler.start_dragging {α β : Type} (s : MyRenderHandler)
    (drag_data : α) (allowed_ops : β) (p : Int × Int) : MyRenderHandler × Bool :=
  (s, false)

/-- update_drag_cursor (lines 517-519): empty body. -/
def MyRenderHandler.update_drag_cursor {α : Type} (s : MyRenderHandler)
    (operation : α) : MyRenderHandler :=
  s

/-- on_scroll_offset_changed (lines 521-523): empty body; the f64
offsets are never inspected, so they stay abstract. -/
def MyRenderHandler.on_scroll_offset_changed {α : Type} (s : MyRenderHandler)
    (x y : α) : MyRenderHandler :=
  s

/-- on_ime_composition_range_changed (lines 525-532): empty body. -/
def MyRenderHandler.on_ime_composition_range_changed {α : Type} (s : MyRenderHandler)
    (selected_range : α) (character_bounds : List Rect) : MyRenderHandler :=
  s

/-- on_text_selection_changed (lines 534-541): empty body. -/
def MyRenderHandler.on_text_selection_changed {α : Type} (s : MyRenderHandler)
    (selected_text : Option String) (selected_range : α) : MyRenderHandler :=
  s

/-- on_virtual_keyboard_requested (lines 543-545): empty body; the
TextInputMode payload stays abstract. -/
def MyRenderHandler.on_virtual_keyboard_requested {α : Type} (s : MyRenderHandler)
    (input_mode : α) : MyRenderHandler :=
  s

/-- on_before_popup (lines 322-338): returns true unconditionally,
ignoring every argument; returning true blocks the popup.  The
out-parameters it never touches are abstracted away. -/
def on_before_popup {δ ε ζ : Type} (target_url target_frame_name : Option String)
    (target_disposition : δ) (user_gesture : Bool) (popup_features : ε)
    (window_info : ζ) : Bool :=
  true

/-- Observable startup events of the sequence in lines 569-624:
the subprocess early exit, the completion of Context::initialize, and
the construction of the browser instance. -/
inductive StartEvent where
  | subprocessExit (code : Int)
  | cefInitialized
  | browserCreated
deriving DecidableEq

/-- Outcome of a startup step: process terminated with the given code,
returned an error (the Err arm of the Result), or returned Ok. -/
inductive StartOutcome where
  | exited (code : Int)
  | errored
  | ok
deriving DecidableEq

/-- Environment the startup sequence runs against: whether
get_root_cache_dir, MainArgs::new and Settings::root_cache_path succeed,
what Context::is_cef_subprocess returns, and whether
Context::initialize succeeds. -/
structure CefEnv where
  cache_dir_ok : Bool
  main_args_ok : Bool
  settings_ok : Bool
  subprocess_code : Option Int
  initialize_ok : Bool
deriving DecidableEq

/-- initialize_cef (lines 569-591): cache dir, MainArgs and Settings are
built first (each may return Err via the question-mark operator); then,
if is_cef_subprocess returns Some code, the process exits with that code
before Context::initialize runs; otherwise initialize runs and its
error, if any, propagates. -/
def initialize_cef (env : CefEnv) : StartOutcome × List StartEvent :=
  if env.cache_dir_ok = false then (StartOutcome.errored, [])
  else if env.main_args_ok = false then (StartOutcome.errored, [])
  else if env.settings_ok = false then (StartOutcome.errored, [])
  else
    match env.subprocess_code with
    | some code => (StartOutcome.exited code, [StartEvent.subprocessExit code])
    | none =>
      if env.initialize_ok then (StartOutcome.ok, [StartEvent.cefInitialized])
      else (StartOutcome.errored, [])

/-- create_browser (lines 593-613): create_browser_sync returns a
Browser directly, so this function always returns Ok. -/
def create_browser : StartOutcome × List StartEvent :=
  (StartOutcome.ok, [StartEvent.browserCreated])

/-- initialize_browser_in_context (lines 615-624): initialize_cef's
error (or the subprocess exit) short-circuits via the question-mark
operator; only on Ok does create_browser run. -/
def initialize_browser_in_context (env : CefEnv) : StartOutcome × List StartEvent :=
  match initialize_cef env with
  | (StartOutcome.exited code, tr) => (StartOutcome.exited code, tr)
  | (StartOutcome.errored, tr) => (StartOutcome.errored, tr)
  | (StartOutcome.ok, tr) =>
      match create_browser with
      | (_, tr2) => (StartOutcome.ok, tr ++ tr2)

/-- Process exit code of main (lines 693-698) as a function of the
startup environment.  Inside try_main's run closure (lines 639-643) a
startup Err is only logged with eprintln and the closure returns, so
try_main still returns Ok(()); main's exit(1) branch therefore never
fires for startup failures and the process terminates normally with
code 0.  A subprocess detection exits with the engine-provided code. -/
def main_exit_code (env : CefEnv) : Int :=
  match initialize_browser_in_context env with
  | (StartOutcome.exited code, _) => code
  | (StartOutcome.errored, _) => 0
  | (StartOutcome.ok, _) => 0

/-- State seen by the Quit action handler (lines 679-686): whether
BrowserState.context still holds Some context, plus instrumentation
counting calls of Context::shutdown and of cx.quit(). -/
structure QuitState where
  context_present : Bool
  shutdown_calls : Nat
  quit_calls : Nat
deriving DecidableEq

/-- The Quit action handler (lines 679-686): state.context.take()
empties the Option; only when it held Some is context.shutdown() called;
cx.quit() runs unconditionally.  No branch can fail. -/
def on_quit_action (s : QuitState) : QuitState :=
  if s.context_present then ⟨false, s.shutdown_calls + 1, s.quit_calls + 1⟩
  else ⟨false, s.shutdown_calls, s.quit_calls + 1⟩

/-! ### Helper lemmas -/

/-- A usize below 2^31 is unchanged by the cast to i32. -/
theorem i32ofUsize_of_lt {n : Nat} (h : n < 2 ^ 31) : i32ofUsize n = (n : Int) := by
  have h32 : n < 2 ^ 32 := lt_trans h (by norm_num)
  unfold i32ofUsize
  rw [Nat.mod_eq_of_lt h32, if_pos h]

/-- on_paint stores exactly the incoming bytes. -/
theorem on_paint_buffer_eq (s : MyRenderHandler) (et : PaintElementType)
    (dr : List Rect) (buf : List Nat) (w h : Nat) :
    (s.on_paint et dr buf w h).buffer = buf :=
  rfl

/-- on_paint leaves view_size equal to the cast of the delivered
dimensions: the guard only skips a write that would be a no-op. -/
theorem on_paint_view_size_eq (s : MyRenderHandler) (et : PaintElementType)
    (dr : List Rect) (buf : List Nat) (w h : Nat) :
    (s.on_paint et dr buf w h).view_size = ⟨i32ofUsize w, i32ofUsize h⟩ := by
  show (if _ ∨ _ then _ else _) = _
  split
  · rfl
  · rename_i hc
    push_neg at hc
    rw [← hc.1, ← hc.2]

/-- Once the context Option is empty, further Quit actions never call
shutdown again and the Option stays empty. -/
theorem on_quit_action_iterate_no_context (m : Nat) (t : QuitState)
    (h : t.context_present = false) :
    (on_quit_action^[m] t).shutdown_calls = t.shutdown_calls ∧
      (on_quit_action^[m] t).context_present = false := by
  induction m generalizing t with
  | zero => exact ⟨rfl, h⟩
  | succ k ih =>
    rw [Function.iterate_succ_apply]
    have h1 : on_quit_action t = ⟨false, t.shutdown_calls, t.quit_calls + 1⟩ := by
      unfold on_quit_action
      rw [h]
      simp
    rw [h1]
    exact ih _ rfl

/-! ### Claims -/

/-- C1 counterexample: the paint delivery of a 1-byte buffer with
dimensions 2 x 2 (so 1 ≠ 2*2*4) is not dropped: it replaces the stored
buffer and overwrites the stored view size. -/
theorem C1_counterexample :
    ([0].length ≠ 2 * 2 * 4) ∧
    (MyRenderHandler.new.on_paint PaintElementType.view [] [0] 2 2).buffer ≠
      MyRenderHandler.new.buffer ∧
    (MyRenderHandler.new.on_paint PaintElementType.view [] [0] 2 2).view_size ≠
      MyRenderHandler.new.view_size := by
  decide

/-- C1 (amended): on_paint performs no length validation at all: every
paint delivery, including one whose pixel buffer length differs from
width*height*4, replaces the stored pixel buffer with the incoming bytes
and sets the stored view size to the delivered dimensions. -/
theorem C1_on_paint_stores_unconditionally (s : MyRenderHandler)
    (et : PaintElementType) (dr : List Rect) (buf : List Nat) (w h : Nat) :
    (s.on_paint et dr buf w h).buffer = buf ∧
    (s.on_paint et dr buf w h).view_size = ⟨i32ofUsize w, i32ofUsize h⟩ :=
  ⟨on_paint_buffer_eq s et dr buf w h, on_paint_view_size_eq s et dr buf w h⟩

/-- C2: for every paint delivery with buffer length exactly
width*height*4 (dimensions in i32 range, as delivered by the engine), a
snapshot taken after the paint returns a stored buffer of exactly that
byte length together with the supplied width and height. -/
theorem C2_snapshot_after_valid_paint (s : MyRenderHandler)
    (et : PaintElementType) (dr : List Rect) (buf : List Nat) (w h : Nat)
    (hlen : buf.length = w * h * 4) (hw : w < 2 ^ 31) (hh : h < 2 ^ 31) :
    ((s.on_paint et dr buf w h).snapshot).1.length = w * h * 4 ∧
    ((s.on_paint et dr buf w h).snapshot).2.1 = (w : Int) ∧
    ((s.on_paint et dr buf w h).snapshot).2.2 = (h : Int) := by
  unfold MyRenderHandler.snapshot
  rw [on_paint_buffer_eq, on_paint_view_size_eq]
  exact ⟨hlen, i32ofUsize_of_lt hw, i32ofUsize_of_lt hh⟩

/-- C2 witness: a concrete 1 x 1 paint of four bytes. -/
theorem C2_witness :
    [7, 7, 7, 7].length = 1 * 1 * 4 ∧ 1 < 2 ^ 31 ∧
    (((MyRenderHandler.new.on_paint PaintElementType.view [] [7, 7, 7, 7] 1 1).snapshot).1.length
        = 1 * 1 * 4 ∧
      ((MyRenderHandler.new.on_paint PaintElementType.view [] [7, 7, 7, 7] 1 1).snapshot).2.1 = (1 : Int) ∧
      ((MyRenderHandler.new.on_paint PaintElementType.view [] [7, 7, 7, 7] 1 1).snapshot).2.2 = (1 : Int)) :=
  ⟨by decide, by decide,
    C2_snapshot_after_valid_paint MyRenderHandler.new PaintElementType.view []
      [7, 7, 7, 7] 1 1 (by decide) (by decide) (by decide)⟩

/-- C4 counterexample: a window-bounds change to the valid size 800 x
600 does not resize the stored view geometry: get_view_rect afterwards
still answers the previous 1024 x 768, not 800 x 600. -/
theorem C4_counterexample :
    (0 : Int) < 800 ∧ (0 : Int) < 600 ∧
    (observe_window_bounds MyRenderHandler.new (800, 600)).get_view_rect ≠
      Rect.mk 0 0 800 600 := by
  decide

/-- C4 (amended): the UI-side window-bounds handler performs no resize
at all: it leaves the handler state, and hence the view rect answered to
the engine, exactly as before; the stored view size changes only through
on_paint.  In particular there is no clamping logic for non-positive
dimensions because no dimension is ever written from the UI side. -/
theorem C4_bounds_observer_is_noop (s : MyRenderHandler) (bounds : Int × Int) :
    observe_window_bounds s bounds = s ∧
    (observe_window_bounds s bounds).get_view_rect = s.get_view_rect :=
  ⟨rfl, rfl⟩

/-- C5: when startup reaches the subprocess check (cache dir, MainArgs
and Settings succeeded) and the process is detected as a CEF subprocess,
the process exits with the engine-provided code before
Context::initialize completes and before create_browser ever runs. -/
theorem C5_subprocess_short_circuit (env : CefEnv) (code : Int)
    (hcache : env.cache_dir_ok = true) (hargs : env.main_args_ok = true)
    (hset : env.settings_ok = true) (hsub : env.subprocess_code = some code) :
    (initialize_browser_in_context env).1 = StartOutcome.exited code ∧
    StartEvent.browserCreated ∉ (initialize_browser_in_context env).2 ∧
    StartEvent.cefInitialized ∉ (initialize_browser_in_context env).2 := by
  unfold initialize_browser_in_context initialize_cef
  rw [hcache, hargs, hset, hsub]
  simp

/-- C5 witness: a concrete subprocess environment with exit code 7. -/
theorem C5_witness :
    (CefEnv.mk true true true (some 7) true).cache_dir_ok = true ∧
    (CefEnv.mk true true true (some 7) true).main_args_ok = true ∧
    (CefEnv.mk true true true (some 7) true).settings_ok = true ∧
    (CefEnv.mk true true true (some 7) true).subprocess_code = some 7 ∧
    ((initialize_browser_in_context (CefEnv.mk true true true (some 7) true)).1 =
        StartOutcome.exited 7 ∧
      StartEvent.browserCreated ∉
        (initialize_browser_in_context (CefEnv.mk true true true (some 7) true)).2 ∧
      StartEvent.cefInitialized ∉
        (initialize_browser_in_context (CefEnv.mk true true true (some 7) true)).2) :=
  ⟨rfl, rfl, rfl, rfl,
    C5_subprocess_short_circuit (CefEnv.mk true true true (some 7) true) 7 rfl rfl rfl rfl⟩

/-- C6: invoking the Quit action N ≥ 1 times from a state still holding
the context performs exactly one shutdown; every later call finds the
Option already emptied by take(), skips shutdown, and cannot fail. -/
theorem C6_shutdown_idempotent (s : QuitState) (n : Nat)
    (hctx : s.context_present = true) (hcount : s.shutdown_calls = 0) :
    (on_quit_action^[n + 1] s).shutdown_calls = 1 ∧
    (on_quit_action^[n + 1] s).context_present = false := by
  rw [Function.iterate_succ_apply]
  have h1 : on_quit_action s = ⟨false, s.shutdown_calls + 1, s.quit_calls + 1⟩ := by
    unfold on_quit_action
    rw [hctx]
    simp
  rw [h1, hcount]
  exact on_quit_action_iterate_no_context n ⟨false, 0 + 1, s.quit_calls + 1⟩ rfl

/-- C6 witness: three Quit actions from Running still shut down once. -/
theorem C6_witness :
    (QuitState.mk true 0 0).context_present = true ∧
    (QuitState.mk true 0 0).shutdown_calls = 0 ∧
    ((on_quit_action^[3] (QuitState.mk true 0 0)).shutdown_calls = 1 ∧
      (on_quit_action^[3] (QuitState.mk true 0 0)).context_present = false) :=
  ⟨rfl, rfl, C6_shutdown_idempotent (QuitState.mk true 0 0) 2 rfl rfl⟩

/-- C7 counterexample: when Context::initialize fails (no subprocess,
everything earlier fine), startup returns the typed Err, yet the process
terminates with exit code 0, not non-zero: try_main's run closure only
logs the error and returns, so main's exit(1) branch never fires. -/
theorem C7_counterexample :
    (initialize_browser_in_context (CefEnv.mk true true true none false)).1 =
      StartOutcome.errored ∧
    main_exit_code (CefEnv.mk true true true none false) = 0 := by
  decide

/-- C7 (amended): a startup failure is surfaced as a typed error by
initialize_browser_in_context, but try_main merely logs it inside the
run closure and still returns Ok, so the process never exits non-zero
for a startup failure: whenever startup errors, the exit code is 0 (and
the application keeps running with no browser content). -/
theorem C7_startup_error_swallowed (env : CefEnv)
    (herr : (initialize_browser_in_context env).1 = StartOutcome.errored) :
    main_exit_code env = 0 := by
  unfold main_exit_code
  rcases hmain : initialize_browser_in_context env with ⟨out, tr⟩
  rw [hmain] at herr
  simp only at herr
  rw [herr]

/-- C7 witness: the concrete failing-initialize environment. -/
theorem C7_witness :
    (initialize_browser_in_context (CefEnv.mk true true true none true)).1 ≠
      StartOutcome.errored ∧
    (initialize_browser_in_context (CefEnv.mk false true true none true)).1 =
      StartOutcome.errored ∧
    main_exit_code (CefEnv.mk false true true none true) = 0 :=
  ⟨by decide, by decide,
    C7_startup_error_swallowed (CefEnv.mk false true true none true) (by decide)⟩

/-- C8: a paint delivering dimensions (in i32 range) that differ from
the stored view size overwrites the stored geometry, so get_view_rect
afterwards answers exactly the rect at origin with the paint dimensions:
geometry follows the engine's paints. -/
theorem C8_paint_overwrites_geometry (s : MyRenderHandler)
    (et : PaintElementType) (dr : List Rect) (buf : List Nat) (w h : Nat)
    (hw : w < 2 ^ 31) (hh : h < 2 ^ 31)
    (hne : s.view_size ≠ ⟨(w : Int), (h : Int)⟩) :
    (s.on_paint et dr buf w h).get_view_rect = ⟨0, 0, (w : Int), (h : Int)⟩ := by
  unfold MyRenderHandler.get_view_rect
  rw [on_paint_view_size_eq, i32ofUsize_of_lt hw, i32ofUsize_of_lt hh]

/-- C8 witness: painting 640 x 480 over the initial 1024 x 768. -/
theorem C8_witness :
    640 < 2 ^ 31 ∧ 480 < 2 ^ 31 ∧
    MyRenderHandler.new.view_size ≠ ⟨(640 : Int), (480 : Int)⟩ ∧
    (MyRenderHandler.new.on_paint PaintElementType.view [] [] 640 480).get_view_rect =
      ⟨0, 0, (640 : Int), (480 : Int)⟩ :=
  ⟨by decide, by decide, by decide,
    C8_paint_overwrites_geometry MyRenderHandler.new PaintElementType.view [] []
      640 480 (by decide) (by decide) (by decide)⟩

/-- C9: every auxiliary render callback (popup show/size, accelerated
paint, touch-handle state, drag start/update, scroll offset, IME range,
text selection, virtual keyboard) leaves the handler state — and hence
the stored view size and pixel buffer — unchanged. -/
theorem C9_auxiliary_callbacks_preserve_state {α β γ δ ε ζ η θ : Type}
    (s : MyRenderHandler) (visible : Bool) (r : Rect) (et : PaintElementType)
    (dr : List Rect) (ths : α) (dd : β) (ops : γ) (p : Int × Int) (op2 : δ)
    (x y : ε) (sel : ζ) (cb : List Rect) (txt : Option String) (sel2 : η)
    (im : θ) :
    s.on_popup_show visible = s ∧
    s.on_popup_size r = s ∧
    s.on_accelerated_paint et dr = s ∧
    s.on_touch_handle_state_changed ths = s ∧
    (s.start_dragging dd ops p).1 = s ∧
    s.update_drag_cursor op2 = s ∧
    s.on_scroll_offset_changed x y = s ∧
    s.on_ime_composition_range_changed sel cb = s ∧
    s.on_text_selection_changed txt sel2 = s ∧
    s.on_virtual_keyboard_requested im = s :=
  ⟨rfl, rfl, rfl, rfl, rfl, rfl, rfl, rfl, rfl, rfl⟩

/-- C10: on_before_popup returns true for every combination of target
URL, frame name, disposition, user gesture, popup features and window
info, so popup creation is unconditionally blocked. -/
theorem C10_popup_unconditionally_blocked {δ ε ζ : Type}
    (target_url target_frame_name : Option String) (target_disposition : δ)
    (user_gesture : Bool) (popup_features : ε) (window_info : ζ) :
    on_before_popup target_url target_frame_name target_disposition
      user_gesture popup_features window_info = true :=
  rfl

end Browser
